import Mathlib

/-!
Verification development for the universal MCP client
(`src/client/client.py`).  The orchestration core is embedded shallowly:
the external LLM providers and the tool-hosting session are oracles
(functions indexed by the number of calls made so far), and the two
query-processing paths `_process_anthropic_query` / `_process_openai_query`
are translated into pure state-passing functions over explicit
conversation states.
-/

/-- JSON-shaped values: used for tool input schemas and tool-call
arguments, which `client.py` passes through without inspecting. -/
inductive Json where
  | null : Json
  | bool (b : Bool) : Json
  | num (n : Int) : Json
  | str (s : String) : Json
  | arr (xs : List Json) : Json
  | obj (fs : List (String × Json)) : Json

/-- Rendering of an argument value inside the human-readable trace line
`[Calling tool <name> with args <args>]` (Python renders the dict with
`str`). -/
def Json.render : Json → String
  | .null => "None"
  | .bool b => cond b "True" "False"
  | .num n => toString n
  | .str s => s
  | .arr xs => "[" ++ String.intercalate ", " (xs.attach.map fun x => Json.render x.1) ++ "]"
  | .obj fs =>
      "\x7b" ++
        String.intercalate ", "
          (fs.attach.map fun f => f.1.1 ++ ": " ++ Json.render f.1.2) ++
      "\x7d"
termination_by j => sizeOf j
decreasing_by
· have h := List.sizeOf_lt_of_mem x.2
  simp only [Json.arr.sizeOf_spec]
  omega
· obtain ⟨⟨a, b⟩, hmem⟩ := f
  have h := List.sizeOf_lt_of_mem hmem
  simp only [Prod.mk.sizeOf_spec] at h
  simp only [Json.obj.sizeOf_spec]
  omega

/-- A tool advertised by the tool-hosting session: `tool.name`,
`tool.description` (optional in the MCP SDK, hence `Option`),
`tool.inputSchema`. -/
structure ToolDescriptor where
  name : String
  description : Option String
  inputSchema : Json

/-- Anthropic wire shape of one tool (client.py lines 190-194). -/
structure AWireTool where
  name : String
  description : String
  input_schema : Json

/-- Inner `function` object of the OpenAI wire shape (lines 277-281). -/
structure OWireFunction where
  name : String
  description : String
  parameters : Json

/-- OpenAI wire shape of one tool (lines 275-282). -/
structure OWireTool where
  type : String
  function : OWireFunction

/-- `{"name": tool.name, "description": tool.description or "",
"input_schema": tool.inputSchema}` — Python `or ""` maps both `None` and
`""` to `""`, which `Option.getD ""` mirrors. -/
def wireA (t : ToolDescriptor) : AWireTool :=
  { name := t.name
    description := t.description.getD ""
    input_schema := t.inputSchema }

/-- `{"type": "function", "function": {"name": ..., "description":
tool.description or "", "parameters": tool.inputSchema}}`. -/
def wireB (t : ToolDescriptor) : OWireTool :=
  { type := "function"
    function :=
      { name := t.name
        description := t.description.getD ""
        parameters := t.inputSchema } }

/-- The `available_tools` list built for the Anthropic call. -/
def wireListA (ts : List ToolDescriptor) : List AWireTool := ts.map wireA

/-- The `available_tools` list built for the OpenAI call. -/
def wireListB (ts : List ToolDescriptor) : List OWireTool := ts.map wireB

/-- Reading name/description/schema back off the Anthropic wire shape. -/
def readA (w : AWireTool) : ToolDescriptor :=
  { name := w.name
    description := some w.description
    inputSchema := w.input_schema }

/-- Reading name/description/schema back off the OpenAI wire shape. -/
def readB (w : OWireTool) : ToolDescriptor :=
  { name := w.function.name
    description := some w.function.description
    inputSchema := w.function.parameters }

/-- One content block of an Anthropic response: either a text block or a
`tool_use` block carrying `name`, `input` and `id`. -/
inductive ContentBlock where
  | text (s : String) : ContentBlock
  | toolUse (name : String) (input : Json) (id : String) : ContentBlock

/-- Environment for the Anthropic path: `create n` is the n-th
`anthropic.messages.create` call of the query, `callTool k name args` the
k-th `session.call_tool` attempt.  A tool result is a list of content
parts, `some s` for a part with a `text` attribute. -/
structure AEnv where
  create : Nat → Except String (List ContentBlock)
  callTool : Nat → String → Json → Except String (List (Option String))

/-- One entry of the local `messages` list of
`_process_anthropic_query`.  `assistantShared` stands for the assistant
message whose `content` is the shared, still-mutating
`assistant_message_content` list; it is resolved against the final value
of that list when the conversation is read back (Python list aliasing).
`toolResult` is the user-role message holding one `tool_result` block. -/
inductive AMsg where
  | user (content : String) : AMsg
  | assistantShared : AMsg
  | toolResult (toolUseId : String) (content : String) : AMsg

/-- State of `_process_anthropic_query`: the wire-shaped tool list, the
local `messages` list, the shared `assistant_message_content` list, the
`final_text` output buffer, and counters of provider calls / tool-call
attempts made so far (indices into the oracles). -/
structure AState where
  wireTools : List AWireTool
  messages : List AMsg
  assistantContent : List ContentBlock
  finalText : List String
  callCount : Nat
  toolCallCount : Nat

/-- State after seeding: `messages = [{"role": "user", "content": query}]`,
empty buffers, one provider call (the initial one) already made. -/
def initA (q : String) (tools : List ToolDescriptor) : AState :=
  { wireTools := wireListA tools
    messages := [AMsg.user q]
    assistantContent := []
    finalText := []
    callCount := 1
    toolCallCount := 0 }

/-- The text joined from a tool result:
`"\n".join(c.text for c in result.content if hasattr(c, "text"))`. -/
def joinResultText (res : List (Option String)) : String :=
  String.intercalate "\n" (res.filterMap fun x => x)

/-- Output of the follow-up Anthropic call made after a successful tool
execution: on success, the text of the leading content block if it is a
text block (`if response.content and response.content[0].type ==
"text"`); on failure, the absorbed error line. -/
def followupTextA (env : AEnv) (n : Nat) : List String :=
  match env.create n with
  | .ok r2 =>
      match r2.head? with
      | some (ContentBlock.text t) => [t]
      | _ => []
  | .error e => ["[Error getting response after tool call: " ++ e ++ "]"]

/-- Body of the `for content in response.content:` loop of
`_process_anthropic_query` for one block.  A text block goes to both
`final_text` and `assistant_message_content`.  A `tool_use` block is
executed: on failure only an error line is emitted and the iteration
continues; on success the two trace lines are emitted, the block is
appended to the shared assistant content, the assistant message and the
tool-result message are appended to `messages`, and one follow-up
provider call is made whose leading text block (if any) is appended to
`final_text` (a follow-up failure is absorbed into an error line). -/
def stepA (env : AEnv) (st : AState) (c : ContentBlock) : AState :=
  match c with
  | .text s =>
      { st with
        finalText := st.finalText ++ [s]
        assistantContent := st.assistantContent ++ [ContentBlock.text s] }
  | .toolUse name input id =>
      match env.callTool st.toolCallCount name input with
      | .error e =>
          { st with
            finalText := st.finalText ++
              ["[Error calling tool " ++ name ++ ": " ++ e ++ "]"]
            toolCallCount := st.toolCallCount + 1 }
      | .ok res =>
          let toolResultText := joinResultText res
          { st with
            finalText := st.finalText ++
              ["[Calling tool " ++ name ++ " with args " ++ input.render ++ "]",
               "[Tool result: " ++ toolResultText ++ "]"] ++
              followupTextA env st.callCount
            assistantContent := st.assistantContent ++
              [ContentBlock.toolUse name input id]
            messages := st.messages ++
              [AMsg.assistantShared, AMsg.toolResult id toolResultText]
            toolCallCount := st.toolCallCount + 1
            callCount := st.callCount + 1 }

/-- The whole `for content in response.content:` loop (the loop iterates
over the first response only; reassigning `response` inside the body does
not change the sequence being iterated). -/
def runABlocks (env : AEnv) (blocks : List ContentBlock) (st : AState) : AState :=
  blocks.foldl (stepA env) st

/-- `_process_anthropic_query`: seed the conversation, make the initial
provider call (whose failure re-raises), then run the block loop. -/
def runA (env : AEnv) (q : String) (tools : List ToolDescriptor) :
    Except String AState :=
  match env.create 0 with
  | .error e => .error e
  | .ok response => .ok (runABlocks env response (initA q tools))

/-- A resolved conversation turn, with the shared assistant content list
replaced by its value. -/
inductive ATurn where
  | user (content : String) : ATurn
  | assistant (content : List ContentBlock) : ATurn
  | toolResult (toolUseId : String) (content : String) : ATurn

/-- Resolve one stored message against the final shared
`assistant_message_content` list. -/
def resolveA (final : List ContentBlock) : AMsg → ATurn
  | .user s => ATurn.user s
  | .assistantShared => ATurn.assistant final
  | .toolResult i c => ATurn.toolResult i c

/-- The conversation as any reader of `messages` sees it after the query:
every assistant entry aliases the one shared content list. -/
def conversationA (st : AState) : List ATurn :=
  st.messages.map (resolveA st.assistantContent)

/-- One entry of `message.tool_calls` in an OpenAI response:
`tool_call.id`, `tool_call.function.name`, and the JSON-encoded
`tool_call.function.arguments` string. -/
structure OToolCall where
  id : String
  name : String
  argumentsRaw : String

/-- The message of `response.choices[0]` of an OpenAI call: optional
`content` text plus the `tool_calls` list (empty when absent). -/
structure OProviderMsg where
  content : Option String
  toolCalls : List OToolCall

/-- Environment for the OpenAI path: `create n` is the n-th
`openai.chat.completions.create` call, `callTool` as in `AEnv`, and
`jsonDecode` models `json.loads` on an arguments string (`none` when it
raises `JSONDecodeError`). -/
structure OEnv where
  create : Nat → Except String OProviderMsg
  callTool : Nat → String → Json → Except String (List (Option String))
  jsonDecode : String → Option Json

/-- One entry of the local `messages` list of `_process_openai_query`:
the user turn, an assistant message with `content: None` and a single
tool call (carrying the raw arguments string), or a `role: "tool"`
message with the result text. -/
inductive OMsg where
  | user (content : String) : OMsg
  | assistantToolCall (id : String) (name : String) (argumentsRaw : String) : OMsg
  | toolMsg (toolCallId : String) (content : String) : OMsg

/-- State of `_process_openai_query`, mirroring `AState`. -/
structure OState where
  wireTools : List OWireTool
  messages : List OMsg
  finalText : List String
  callCount : Nat
  toolCallCount : Nat

/-- State after seeding the OpenAI conversation with the user turn. -/
def initO (q : String) (tools : List ToolDescriptor) : OState :=
  { wireTools := wireListB tools
    messages := [OMsg.user q]
    finalText := []
    callCount := 1
    toolCallCount := 0 }

/-- Output of the follow-up OpenAI call made after a successful tool
execution: the message content (`or ""`, appended unconditionally) on
success, the absorbed error line on failure. -/
def followupTextO (env : OEnv) (n : Nat) : List String :=
  match env.create n with
  | .ok m2 => [m2.content.getD ""]
  | .error e => ["[Error getting response after tool call: " ++ e ++ "]"]

/-- Body of the `for tool_call in message.tool_calls:` loop for one tool
call.  If `json.loads` fails on the arguments string, one parse-error
line is emitted and the call is skipped (no tool call, no provider
call).  Otherwise the tool is executed: failure emits one error line and
skips the conversation append; success emits the two trace lines,
appends the assistant tool-call message and the tool message, and makes
one follow-up provider call (without tool schemas) whose message content
(`or ""`) is appended; a follow-up failure is absorbed into an error
line. -/
def stepO (env : OEnv) (st : OState) (tc : OToolCall) : OState :=
  match env.jsonDecode tc.argumentsRaw with
  | none =>
      { st with
        finalText := st.finalText ++
          ["[Error: Could not parse arguments for " ++ tc.name ++ "]"] }
  | some toolArgs =>
      match env.callTool st.toolCallCount tc.name toolArgs with
      | .error e =>
          { st with
            finalText := st.finalText ++
              ["[Error calling tool " ++ tc.name ++ ": " ++ e ++ "]"]
            toolCallCount := st.toolCallCount + 1 }
      | .ok res =>
          let toolResultText := joinResultText res
          { st with
            finalText := st.finalText ++
              ["[Calling tool " ++ tc.name ++ " with args " ++ toolArgs.render ++ "]",
               "[Tool result: " ++ toolResultText ++ "]"] ++
              followupTextO env st.callCount
            messages := st.messages ++
              [OMsg.assistantToolCall tc.id tc.name tc.argumentsRaw,
               OMsg.toolMsg tc.id toolResultText]
            toolCallCount := st.toolCallCount + 1
            callCount := st.callCount + 1 }

/-- The whole `for tool_call in message.tool_calls:` loop over the first
response's tool calls. -/
def runOToolCalls (env : OEnv) (tcs : List OToolCall) (st : OState) : OState :=
  tcs.foldl (stepO env) st

/-- The state right before the tool-call loop: the seeded conversation,
with `message.content or ""` appended to the output buffer when
non-empty (`if content: final_text.append(content)`). -/
def oSeed (q : String) (tools : List ToolDescriptor) (m : OProviderMsg) : OState :=
  let st0 := initO q tools
  let content := m.content.getD ""
  if content = "" then st0
  else { st0 with finalText := st0.finalText ++ [content] }

/-- `_process_openai_query`: seed the conversation, make the initial
provider call (whose failure re-raises), append the message content if
non-empty, then run the tool-call loop. -/
def runO (env : OEnv) (q : String) (tools : List ToolDescriptor) :
    Except String OState :=
  match env.create 0 with
  | .error e => .error e
  | .ok m => .ok (runOToolCalls env m.toolCalls (oSeed q tools m))

/-- The two supported LLM providers (`ModelProvider`). -/
inductive Provider where
  | anthropic : Provider
  | openai : Provider
deriving DecidableEq

/-- The `ANTHROPIC_MODELS` short-name mapping. -/
def ANTHROPIC_MODELS : List (String × String) :=
  [("claude-3-opus", "claude-3-opus-latest"),
   ("claude-3-sonnet", "claude-3-7-sonnet-latest"),
   ("claude-3-haiku", "claude-3-5-haiku-latest")]

/-- The `OPENAI_MODELS` short-name mapping. -/
def OPENAI_MODELS : List (String × String) :=
  [("gpt-4-turbo", "gpt-4-turbo"),
   ("gpt-4", "gpt-4o"),
   ("gpt-3.5-turbo", "gpt-3.5-turbo")]

/-- Python truthiness of an optional string (`None` and `""` are falsy). -/
def optTruthy : Option String → Bool
  | none => false
  | some s => !(s == "")

/-- `MODELS.get(k, k)` where `k` may be `None`: an unknown name passes
through verbatim, and `None` yields `None`. -/
def modelsGet (models : List (String × String)) : Option String → Option String
  | none => none
  | some s => some ((models.lookup s).getD s)

/-- Client state carried on the long-lived `UniversalMCPClient` object:
the active provider, model name, derived full model name, which adapter
objects (`self.anthropic` / `self.openai`) are present, and the identity
of the open tool-hosting session (`self.session`), `none` before
`connect_to_server`. -/
structure ClientState where
  provider : Provider
  model_name : Option String
  full_model_name : Option String
  hasAnthropic : Bool
  hasOpenai : Bool
  session : Option Nat

/-- Presence of the credential environment variables. -/
structure Keys where
  anthropicKey : Option String
  openaiKey : Option String

/-- `UniversalMCPClient.__init__`: fails when the provider's API key is
missing, defaults the model name, and derives the full model name via
the static mapping (unknown names pass through).  A fresh client has no
tool-hosting session. -/
def initClient (keys : Keys) (provider : Provider) (model_name : Option String) :
    Except String ClientState :=
  match provider with
  | .anthropic =>
      if optTruthy keys.anthropicKey then
        let name := if optTruthy model_name then model_name.getD "" else "claude-3-sonnet"
        .ok { provider := Provider.anthropic
              model_name := some name
              full_model_name := some ((ANTHROPIC_MODELS.lookup name).getD name)
              hasAnthropic := true
              hasOpenai := false
              session := none }
      else
        .error "ANTHROPIC_API_KEY not set in environment or .env file"
  | .openai =>
      if optTruthy keys.openaiKey then
        let name := if optTruthy model_name then model_name.getD "" else "gpt-4-turbo"
        .ok { provider := Provider.openai
              model_name := some name
              full_model_name := some ((OPENAI_MODELS.lookup name).getD name)
              hasAnthropic := false
              hasOpenai := true
              session := none }
      else
        .error "OPENAI_API_KEY not set in environment or .env file"

/-- Whitespace characters removed by Python `str.strip()`. -/
def isSpaceChar (c : Char) : Bool :=
  c = ' ' || c = '\t' || c = '\n' || c = '\r'

/-- Drop leading whitespace from a character list. -/
def dropLeadingSpace : List Char → List Char
  | [] => []
  | c :: cs => if isSpaceChar c then dropLeadingSpace cs else c :: cs

/-- Python `str.strip()`. -/
def pyStrip (s : String) : String :=
  String.mk ((dropLeadingSpace ((dropLeadingSpace s.data).reverse)).reverse)

/-- Python `str.lower()`. -/
def pyLower (s : String) : String :=
  String.mk (s.data.map Char.toLower)

/-- Splitting a character list at every occurrence of a separator. -/
def splitCharAux (sep : Char) : List Char → List Char → List String
  | [], acc => [String.mk acc.reverse]
  | c :: cs, acc =>
      if c = sep then String.mk acc.reverse :: splitCharAux sep cs []
      else splitCharAux sep cs (c :: acc)

/-- Python `str.split(sep)` for a one-character separator. -/
def pySplitChar (sep : Char) (s : String) : List String :=
  splitCharAux sep s.data []

/-- `query[4:].strip().split(":")`. -/
def parseUseParts (rest : String) : List String :=
  pySplitChar ':' (pyStrip rest)

/-- `parts[0].strip().lower()`. -/
def parseUseProvider (rest : String) : String :=
  pyLower (pyStrip ((parseUseParts rest).headD ""))

/-- `parts[1].strip()` when a `:` is present (`if len(parts) > 1`). -/
def parseUseModel (rest : String) : Option String :=
  match parseUseParts rest with
  | _ :: p2 :: _ => some (pyStrip p2)
  | _ => none

/-- The error printed for a provider string outside the allow-list. -/
def unsupportedProviderMsg (p : String) : String :=
  "Unsupported provider: " ++ p ++ ". Use \x27openai\x27 or \x27anthropic\x27."

/-- The model-switch branch of `chat_loop` for a line `use <rest>`:
validate the provider string against the allow-list, parse the optional
model, and if a reinitialization is needed construct a fresh client (its
failure is caught and reported); on success the provider, model name,
full model name and adapter objects are replaced in place on the
long-lived client — `self.session` is never touched.  Returns the new
state and the lines printed. -/
def handleUse (keys : Keys) (st : ClientState) (rest : String) :
    ClientState × List String :=
  let providerStr := parseUseProvider rest
  if providerStr = "openai" ∨ providerStr = "anthropic" then
    let newProvider := if providerStr = "openai" then Provider.openai else Provider.anthropic
    let newModel := parseUseModel rest
    if newProvider ≠ st.provider ∨ (optTruthy newModel ∧ newModel ≠ st.model_name) then
      match initClient keys newProvider newModel with
      | .error e => (st, ["Error switching model: " ++ e])
      | .ok _newClient =>
          match newProvider with
          | .anthropic =>
              ({ st with
                  provider := Provider.anthropic
                  model_name := newModel
                  full_model_name := modelsGet ANTHROPIC_MODELS newModel
                  hasAnthropic := true
                  hasOpenai := false },
               ["Switched to anthropic with model " ++
                 (modelsGet ANTHROPIC_MODELS newModel).getD "None"])
          | .openai =>
              ({ st with
                  provider := Provider.openai
                  model_name := newModel
                  full_model_name := modelsGet OPENAI_MODELS newModel
                  hasAnthropic := false
                  hasOpenai := true },
               ["Switched to openai with model " ++
                 (modelsGet OPENAI_MODELS newModel).getD "None"])
    else (st, [])
  else (st, [unsupportedProviderMsg providerStr])

/-- Environment for a top-level `process_query` call: the
`session.list_tools()` result and the per-provider oracles. -/
structure QueryEnv where
  listTools : Except String (List ToolDescriptor)
  aenv : AEnv
  oenv : OEnv

/-- `"\n".join(final_text)` for the Anthropic path. -/
def joinA (st : AState) : String := String.intercalate "\n" st.finalText

/-- `"\n".join(final_text)` for the OpenAI path. -/
def joinO (st : OState) : String := String.intercalate "\n" st.finalText

/-- `process_query`: raises when no session is connected, otherwise
lists the tools and dispatches on the active provider.  The client state
is returned alongside to make explicit that the call leaves it
unchanged. -/
def processQuery (env : QueryEnv) (st : ClientState) (query : String) :
    Except String String × ClientState :=
  match st.session with
  | none =>
      (.error "Not connected to a server. Call connect_to_server() first.", st)
  | some _ =>
      match env.listTools with
      | .error e => (.error e, st)
      | .ok tools =>
          match st.provider with
          | .anthropic => ((runA env.aenv query tools).map joinA, st)
          | .openai => ((runO env.oenv query tools).map joinO, st)

/-- The `tool_use` ids occurring in a list of content blocks, in order. -/
def blockRequestIds (bs : List ContentBlock) : List String :=
  bs.filterMap fun b =>
    match b with
    | ContentBlock.toolUse _ _ i => some i
    | _ => none

/-- The ids of the `tool_result` messages of an Anthropic conversation. -/
def aResultIds (ms : List AMsg) : List String :=
  ms.filterMap fun m =>
    match m with
    | AMsg.toolResult i _ => some i
    | _ => none

/-- One executed tool call of the Anthropic loop: the request id and the
result text recorded for it. -/
structure APair where
  rid : String
  text : String

/-- The conversation suffix produced by a list of executed tool calls:
each one contributes the (shared) assistant message immediately followed
by its `tool_result` message. -/
def aPairs : List APair → List AMsg
  | [] => []
  | p :: l => AMsg.assistantShared :: AMsg.toolResult p.rid p.text :: aPairs l

/-- One executed tool call of the OpenAI loop. -/
structure OPair where
  rid : String
  name : String
  argumentsRaw : String
  text : String

/-- The conversation suffix produced by executed OpenAI tool calls: each
one contributes the assistant tool-call message immediately followed by
its `role: "tool"` message with the same id. -/
def oPairs : List OPair → List OMsg
  | [] => []
  | p :: l =>
      OMsg.assistantToolCall p.rid p.name p.argumentsRaw ::
        OMsg.toolMsg p.rid p.text :: oPairs l

/-- The ids of assistant tool-call messages of an OpenAI conversation. -/
def oRequestIds (ms : List OMsg) : List String :=
  ms.filterMap fun m =>
    match m with
    | OMsg.assistantToolCall i _ _ => some i
    | _ => none

/-- The ids of `role: "tool"` messages of an OpenAI conversation. -/
def oResultIds (ms : List OMsg) : List String :=
  ms.filterMap fun m =>
    match m with
    | OMsg.toolMsg i _ => some i
    | _ => none

/-- The ids of a response's tool-call list. -/
def tcIds (tcs : List OToolCall) : List String := tcs.map OToolCall.id

/-- How many of the response's tool calls have decodable arguments. -/
def decodableCount (env : OEnv) (tcs : List OToolCall) : Nat :=
  tcs.countP fun tc => (env.jsonDecode tc.argumentsRaw).isSome

/-- Occurrences of a request id across the assistant turns of a resolved
conversation: the total number of `tool_use` blocks with that id,
counted per turn. -/
def countRequestOccurrences (i : String) (conv : List ATurn) : Nat :=
  (conv.map fun t =>
    match t with
    | ATurn.assistant content => (blockRequestIds content).count i
    | _ => 0).sum

/-- Whether an `Except`-valued run returned normally. -/
def exceptIsOk {α : Type} : Except String α → Bool
  | .ok _ => true
  | .error _ => false

/-- The conversation of a completed Anthropic run (`[]` on a raise). -/
def aMessagesOf : Except String AState → List AMsg
  | .ok st => st.messages
  | .error _ => []

/-- The resolved conversation of a completed Anthropic run. -/
def aConversationOf : Except String AState → List ATurn
  | .ok st => conversationA st
  | .error _ => []

/-- The number of tool-call attempts of a completed Anthropic run. -/
def aToolCallCountOf : Except String AState → Nat
  | .ok st => st.toolCallCount
  | .error _ => 0

/-- The output buffer of a completed Anthropic run. -/
def aFinalTextOf : Except String AState → List String
  | .ok st => st.finalText
  | .error _ => []

/-- The conversation of a completed OpenAI run. -/
def oMessagesOf : Except String OState → List OMsg
  | .ok st => st.messages
  | .error _ => []

/-- The number of tool-call attempts of a completed OpenAI run. -/
def oToolCallCountOf : Except String OState → Nat
  | .ok st => st.toolCallCount
  | .error _ => 0

/-- The output buffer of a completed OpenAI run. -/
def oFinalTextOf : Except String OState → List String
  | .ok st => st.finalText
  | .error _ => []

/-- Anthropic environment whose first response requests one tool and
whose follow-up response requests another tool (`id2`). -/
def envC1 : AEnv :=
  { create := fun n =>
      if n = 0 then
        .ok [ContentBlock.toolUse "get_weather"
              (Json.obj [("city", Json.str "Paris")]) "id1"]
      else
        .ok [ContentBlock.toolUse "second_tool" Json.null "id2"]
    callTool := fun _ _ _ => .ok [some "sunny"] }

/-- Anthropic environment whose first response carries two `tool_use`
blocks with distinct ids; every tool call succeeds and every follow-up
response is empty. -/
def envC2 : AEnv :=
  { create := fun n =>
      if n = 0 then
        .ok [ContentBlock.toolUse "alpha" Json.null "1",
             ContentBlock.toolUse "beta" Json.null "2"]
      else .ok []
    callTool := fun _ _ _ => .ok [some "r"] }

/-- Anthropic environment whose single requested tool call fails. -/
def envC3 : AEnv :=
  { create := fun _ =>
      .ok [ContentBlock.toolUse "get_weather" Json.null "id1"]
    callTool := fun _ _ _ => .error "boom" }

/-- Anthropic environment whose provider is unreachable. -/
def envAFail : AEnv :=
  { create := fun _ => .error "boom"
    callTool := fun _ _ _ => .ok [] }

/-- Trivial Anthropic environment: a text-only response. -/
def envA0 : AEnv :=
  { create := fun _ => .ok [ContentBlock.text "hello"]
    callTool := fun _ _ _ => .ok [] }

/-- OpenAI environment whose provider is unreachable. -/
def envOFail : OEnv :=
  { create := fun _ => .error "boom"
    callTool := fun _ _ _ => .ok []
    jsonDecode := fun _ => some Json.null }

/-- Trivial OpenAI environment: a text-only response. -/
def envO0 : OEnv :=
  { create := fun _ => .ok { content := some "hello", toolCalls := [] }
    callTool := fun _ _ _ => .ok []
    jsonDecode := fun _ => some Json.null }

/-- An OpenAI tool call with decodable (empty-object) arguments. -/
def tcGood1 : OToolCall :=
  { id := "c1", name := "get_weather", argumentsRaw := "\x7b\x7d" }

/-- An OpenAI tool call whose arguments string is not valid JSON. -/
def tcBad : OToolCall :=
  { id := "c2", name := "get_news", argumentsRaw := "not-json" }

/-- A second OpenAI tool call with decodable arguments. -/
def tcGood2 : OToolCall :=
  { id := "c3", name := "get_crypto", argumentsRaw := "\x7b\x7d" }

/-- OpenAI environment requesting three tool calls, the middle one with
undecodable arguments. -/
def envC5 : OEnv :=
  { create := fun n =>
      if n = 0 then .ok { content := none, toolCalls := [tcGood1, tcBad, tcGood2] }
      else .ok { content := some "done", toolCalls := [] }
    callTool := fun _ name _ => .ok [some ("result of " ++ name)]
    jsonDecode := fun s => if s = "not-json" then none else some (Json.obj []) }

/-- A tool descriptor with an absent description. -/
def tDescNone : ToolDescriptor :=
  { name := "get_weather", description := none, inputSchema := Json.null }

/-- The same descriptor with an empty-string description. -/
def tDescEmpty : ToolDescriptor :=
  { name := "get_weather", description := some "", inputSchema := Json.null }

/-- A tool descriptor with a present, non-empty description. -/
def tDescPresent : ToolDescriptor :=
  { name := "get_weather", description := some "Get the weather"
    inputSchema := Json.obj [("type", Json.str "object")] }

/-- Both credential variables present. -/
def keys0 : Keys := { anthropicKey := some "a-key", openaiKey := some "o-key" }

/-- A connected client using the Anthropic provider. -/
def client0 : ClientState :=
  { provider := Provider.anthropic
    model_name := some "claude-3-sonnet"
    full_model_name := some "claude-3-7-sonnet-latest"
    hasAnthropic := true
    hasOpenai := false
    session := some 7 }

/-- A client that never connected to a server. -/
def disconnectedClient : ClientState :=
  { provider := Provider.anthropic
    model_name := some "claude-3-sonnet"
    full_model_name := some "claude-3-7-sonnet-latest"
    hasAnthropic := true
    hasOpenai := false
    session := none }

/-- A query environment offering no tools. -/
def emptyQueryEnv : QueryEnv :=
  { listTools := .ok []
    aenv := envA0
    oenv := envO0 }

lemma aPairs_append (l l2 : List APair) :
    aPairs (l ++ l2) = aPairs l ++ aPairs l2 := by
  induction l with
  | nil => rfl
  | cons p l ih => simp [aPairs, ih]

lemma oPairs_append (l l2 : List OPair) :
    oPairs (l ++ l2) = oPairs l ++ oPairs l2 := by
  induction l with
  | nil => rfl
  | cons p l ih => simp [oPairs, ih]

lemma aResultIds_append (ms ns : List AMsg) :
    aResultIds (ms ++ ns) = aResultIds ms ++ aResultIds ns := by
  simp [aResultIds]

lemma oResultIds_append (ms ns : List OMsg) :
    oResultIds (ms ++ ns) = oResultIds ms ++ oResultIds ns := by
  simp [oResultIds]

lemma oRequestIds_append (ms ns : List OMsg) :
    oRequestIds (ms ++ ns) = oRequestIds ms ++ oRequestIds ns := by
  simp [oRequestIds]

lemma blockRequestIds_append (bs cs : List ContentBlock) :
    blockRequestIds (bs ++ cs) = blockRequestIds bs ++ blockRequestIds cs := by
  simp [blockRequestIds]

lemma aResultIds_aPairs (l : List APair) :
    aResultIds (aPairs l) = l.map APair.rid := by
  induction l with
  | nil => rfl
  | cons p l ih => simp [aPairs, aResultIds] at ih ⊢; exact ih

lemma oRequestIds_oPairs (l : List OPair) :
    oRequestIds (oPairs l) = l.map OPair.rid := by
  induction l with
  | nil => rfl
  | cons p l ih => simp [oPairs, oRequestIds] at ih ⊢; exact ih

lemma oResultIds_oPairs (l : List OPair) :
    oResultIds (oPairs l) = l.map OPair.rid := by
  induction l with
  | nil => rfl
  | cons p l ih => simp [oPairs, oResultIds] at ih ⊢; exact ih

lemma runABlocks_cons (env : AEnv) (b : ContentBlock) (bs : List ContentBlock)
    (st : AState) :
    runABlocks env (b :: bs) st = runABlocks env bs (stepA env st b) := rfl

lemma runOToolCalls_cons (env : OEnv) (tc : OToolCall) (tcs : List OToolCall)
    (st : OState) :
    runOToolCalls env (tc :: tcs) st = runOToolCalls env tcs (stepO env st tc) := rfl

lemma runABlocks_spec (env : AEnv) (bs : List ContentBlock) :
    ∀ st : AState, ∃ l : List APair,
      (runABlocks env bs st).messages = st.messages ++ aPairs l ∧
      blockRequestIds (runABlocks env bs st).assistantContent
        = blockRequestIds st.assistantContent ++ l.map APair.rid ∧
      List.Sublist (l.map APair.rid) (blockRequestIds bs) ∧
      (runABlocks env bs st).toolCallCount
        = st.toolCallCount + (blockRequestIds bs).length ∧
      (runABlocks env bs st).callCount = st.callCount + l.length ∧
      (runABlocks env bs st).wireTools = st.wireTools := by
  induction bs with
  | nil =>
      intro st
      exact ⟨[], by simp [runABlocks, aPairs, blockRequestIds]⟩
  | cons b rest ih =>
      intro st
      rw [runABlocks_cons]
      cases b with
      | text s =>
          obtain ⟨l, h1, h2, h3, h4, h5, h6⟩ := ih (stepA env st (ContentBlock.text s))
          refine ⟨l, ?_, ?_, ?_, ?_, ?_, ?_⟩
          · rw [h1]; simp [stepA]
          · rw [h2]; simp [stepA, blockRequestIds_append, blockRequestIds]
          · simpa [blockRequestIds] using h3
          · rw [h4]; simp [stepA, blockRequestIds]
          · rw [h5]; simp [stepA]
          · rw [h6]; simp [stepA]
      | toolUse name input id =>
          cases hcall : env.callTool st.toolCallCount name input with
          | error e =>
              obtain ⟨l, h1, h2, h3, h4, h5, h6⟩ :=
                ih (stepA env st (ContentBlock.toolUse name input id))
              refine ⟨l, ?_, ?_, ?_, ?_, ?_, ?_⟩
              · rw [h1]; simp [stepA, hcall]
              · rw [h2]; simp [stepA, hcall]
              · simp only [blockRequestIds, List.filterMap_cons]
                exact h3.cons id
              · rw [h4]; simp [stepA, hcall, blockRequestIds]; omega
              · rw [h5]; simp [stepA, hcall]
              · rw [h6]; simp [stepA, hcall]
          | ok res =>
              obtain ⟨l, h1, h2, h3, h4, h5, h6⟩ :=
                ih (stepA env st (ContentBlock.toolUse name input id))
              refine ⟨⟨id, joinResultText res⟩ :: l, ?_, ?_, ?_, ?_, ?_, ?_⟩
              · rw [h1]; simp [stepA, hcall, aPairs]
              · rw [h2]
                simp [stepA, hcall, blockRequestIds_append, blockRequestIds]
              · simp only [blockRequestIds, List.filterMap_cons, List.map_cons]
                exact h3.cons₂ id
              · rw [h4]; simp [stepA, hcall, blockRequestIds]; omega
              · rw [h5]; simp [stepA, hcall]; omega
              · rw [h6]; simp [stepA, hcall]

lemma runOToolCalls_spec (env : OEnv) (tcs : List OToolCall) :
    ∀ st : OState, ∃ l : List OPair,
      (runOToolCalls env tcs st).messages = st.messages ++ oPairs l ∧
      List.Sublist (l.map OPair.rid) (tcIds tcs) ∧
      (runOToolCalls env tcs st).toolCallCount
        = st.toolCallCount + decodableCount env tcs ∧
      (runOToolCalls env tcs st).callCount = st.callCount + l.length ∧
      (runOToolCalls env tcs st).wireTools = st.wireTools := by
  induction tcs with
  | nil =>
      intro st
      exact ⟨[], by simp [runOToolCalls, oPairs, tcIds, decodableCount]⟩
  | cons tc rest ih =>
      intro st
      rw [runOToolCalls_cons]
      cases hdec : env.jsonDecode tc.argumentsRaw with
      | none =>
          obtain ⟨l, h1, h2, h3, h4, h5⟩ := ih (stepO env st tc)
          refine ⟨l, ?_, ?_, ?_, ?_, ?_⟩
          · rw [h1]; simp [stepO, hdec]
          · simp only [tcIds, List.map_cons]
            exact h2.cons tc.id
          · rw [h3]; simp [stepO, hdec, decodableCount]
          · rw [h4]; simp [stepO, hdec]
          · rw [h5]; simp [stepO, hdec]
      | some toolArgs =>
          cases hcall : env.callTool st.toolCallCount tc.name toolArgs with
          | error e =>
              obtain ⟨l, h1, h2, h3, h4, h5⟩ := ih (stepO env st tc)
              refine ⟨l, ?_, ?_, ?_, ?_, ?_⟩
              · rw [h1]; simp [stepO, hdec, hcall]
              · simp only [tcIds, List.map_cons]
                exact h2.cons tc.id
              · rw [h3]; simp [stepO, hdec, hcall, decodableCount]; omega
              · rw [h4]; simp [stepO, hdec, hcall]
              · rw [h5]; simp [stepO, hdec, hcall]
          | ok res =>
              obtain ⟨l, h1, h2, h3, h4, h5⟩ := ih (stepO env st tc)
              refine ⟨⟨tc.id, tc.name, tc.argumentsRaw, joinResultText res⟩ :: l,
                ?_, ?_, ?_, ?_, ?_⟩
              · rw [h1]; simp [stepO, hdec, hcall, oPairs]
              · simp only [tcIds, List.map_cons]
                exact h2.cons₂ tc.id
              · rw [h3]; simp [stepO, hdec, hcall, decodableCount]; omega
              · rw [h4]; simp [stepO, hdec, hcall]; omega
              · rw [h5]; simp [stepO, hdec, hcall]

lemma stepA_toolUse_err (env : AEnv) (st : AState) (name : String) (input : Json)
    (id : String) (e : String)
    (h : env.callTool st.toolCallCount name input = .error e) :
    stepA env st (ContentBlock.toolUse name input id) =
      { st with
        finalText := st.finalText ++
          ["[Error calling tool " ++ name ++ ": " ++ e ++ "]"]
        toolCallCount := st.toolCallCount + 1 } := by
  simp [stepA, h]

lemma stepA_toolUse_ok (env : AEnv) (st : AState) (name : String) (input : Json)
    (id : String) (res : List (Option String))
    (h : env.callTool st.toolCallCount name input = .ok res) :
    stepA env st (ContentBlock.toolUse name input id) =
      { st with
        finalText := st.finalText ++
          ["[Calling tool " ++ name ++ " with args " ++ input.render ++ "]",
           "[Tool result: " ++ joinResultText res ++ "]"] ++
          followupTextA env st.callCount
        assistantContent := st.assistantContent ++
          [ContentBlock.toolUse name input id]
        messages := st.messages ++
          [AMsg.assistantShared, AMsg.toolResult id (joinResultText res)]
        toolCallCount := st.toolCallCount + 1
        callCount := st.callCount + 1 } := by
  simp [stepA, h]

lemma followupTextA_err (env : AEnv) (n : Nat) (e : String)
    (h : env.create n = .error e) :
    followupTextA env n = ["[Error getting response after tool call: " ++ e ++ "]"] := by
  simp [followupTextA, h]

lemma stepO_decode_err (env : OEnv) (st : OState) (tc : OToolCall)
    (h : env.jsonDecode tc.argumentsRaw = none) :
    stepO env st tc =
      { st with
        finalText := st.finalText ++
          ["[Error: Could not parse arguments for " ++ tc.name ++ "]"] } := by
  simp [stepO, h]

lemma stepO_toolUse_err (env : OEnv) (st : OState) (tc : OToolCall)
    (toolArgs : Json) (e : String)
    (hdec : env.jsonDecode tc.argumentsRaw = some toolArgs)
    (h : env.callTool st.toolCallCount tc.name toolArgs = .error e) :
    stepO env st tc =
      { st with
        finalText := st.finalText ++
          ["[Error calling tool " ++ tc.name ++ ": " ++ e ++ "]"]
        toolCallCount := st.toolCallCount + 1 } := by
  simp [stepO, hdec, h]

lemma stepO_toolUse_ok (env : OEnv) (st : OState) (tc : OToolCall)
    (toolArgs : Json) (res : List (Option String))
    (hdec : env.jsonDecode tc.argumentsRaw = some toolArgs)
    (h : env.callTool st.toolCallCount tc.name toolArgs = .ok res) :
    stepO env st tc =
      { st with
        finalText := st.finalText ++
          ["[Calling tool " ++ tc.name ++ " with args " ++ toolArgs.render ++ "]",
           "[Tool result: " ++ joinResultText res ++ "]"] ++
          followupTextO env st.callCount
        messages := st.messages ++
          [OMsg.assistantToolCall tc.id tc.name tc.argumentsRaw,
           OMsg.toolMsg tc.id (joinResultText res)]
        toolCallCount := st.toolCallCount + 1
        callCount := st.callCount + 1 } := by
  simp [stepO, hdec, h]

lemma followupTextO_err (env : OEnv) (n : Nat) (e : String)
    (h : env.create n = .error e) :
    followupTextO env n = ["[Error getting response after tool call: " ++ e ++ "]"] := by
  simp [followupTextO, h]

lemma runA_ok (env : AEnv) (q : String) (tools : List ToolDescriptor)
    (r : List ContentBlock) (h : env.create 0 = .ok r) :
    runA env q tools = .ok (runABlocks env r (initA q tools)) := by
  simp [runA, h]

lemma runA_err (env : AEnv) (q : String) (tools : List ToolDescriptor)
    (e : String) (h : env.create 0 = .error e) :
    runA env q tools = .error e := by
  simp [runA, h]

lemma runO_ok (env : OEnv) (q : String) (tools : List ToolDescriptor)
    (m : OProviderMsg) (h : env.create 0 = .ok m) :
    runO env q tools = .ok (runOToolCalls env m.toolCalls (oSeed q tools m)) := by
  simp [runO, h]

lemma runO_err (env : OEnv) (q : String) (tools : List ToolDescriptor)
    (e : String) (h : env.create 0 = .error e) :
    runO env q tools = .error e := by
  simp [runO, h]

lemma oSeed_proj (q : String) (tools : List ToolDescriptor) (m : OProviderMsg) :
    (oSeed q tools m).messages = [OMsg.user q] ∧
    (oSeed q tools m).callCount = 1 ∧
    (oSeed q tools m).toolCallCount = 0 ∧
    (oSeed q tools m).wireTools = wireListB tools := by
  simp only [oSeed]
  split <;> simp [initO]

lemma readA_wireA (t : ToolDescriptor) (d : String) (h : t.description = some d) :
    readA (wireA t) = t := by
  cases t
  simp only [ToolDescriptor.mk.injEq] at h ⊢
  simp [readA, wireA, h]

lemma readB_wireB (t : ToolDescriptor) (d : String) (h : t.description = some d) :
    readB (wireB t) = t := by
  cases t
  simp only [ToolDescriptor.mk.injEq] at h ⊢
  simp [readB, wireB, h]

lemma readList_wireList_A (ts : List ToolDescriptor)
    (h : ∀ t ∈ ts, t.description.isSome) :
    (wireListA ts).map readA = ts := by
  induction ts with
  | nil => rfl
  | cons t ts ih =>
      obtain ⟨d, hd⟩ := Option.isSome_iff_exists.mp (h t (List.mem_cons_self t ts))
      have hts : ∀ t₂ ∈ ts, t₂.description.isSome :=
        fun t₂ ht₂ => h t₂ (List.mem_cons_of_mem _ ht₂)
      simp only [wireListA, List.map_cons, List.cons.injEq]
      exact ⟨readA_wireA t d hd, ih hts⟩

lemma readList_wireList_B (ts : List ToolDescriptor)
    (h : ∀ t ∈ ts, t.description.isSome) :
    (wireListB ts).map readB = ts := by
  induction ts with
  | nil => rfl
  | cons t ts ih =>
      obtain ⟨d, hd⟩ := Option.isSome_iff_exists.mp (h t (List.mem_cons_self t ts))
      have hts : ∀ t₂ ∈ ts, t₂.description.isSome :=
        fun t₂ ht₂ => h t₂ (List.mem_cons_of_mem _ ht₂)
      simp only [wireListB, List.map_cons, List.cons.injEq]
      exact ⟨readB_wireB t d hd, ih hts⟩

/-- C8 (counterexample): the wire-schema transform is NOT lossless as
stated — a descriptor with an absent description and one with an empty
description produce identical wire shapes (both paths send
`tool.description or ""`), so reading the wire shape back cannot recover
an absent description: it reads back as `""`. -/
theorem C8_counterexample :
    wireA tDescNone = wireA tDescEmpty ∧
    wireB tDescNone = wireB tDescEmpty ∧
    (readA (wireA tDescNone)).description ≠ tDescNone.description ∧
    (readB (wireB tDescNone)).description ≠ tDescNone.description := by
  refine ⟨rfl, rfl, ?_, ?_⟩ <;> simp [readA, readB, wireA, wireB, tDescNone]

/-- C8 (amended): for every list of tool descriptors the transform
produces the `{name, description (empty string when absent),
input_schema}` list for provider A and the
`{type: "function", function: {...}}` list for provider B; reading
name/description/schema back recovers every descriptor whose description
is present, and recovers names and schemas unconditionally (only an
absent description is changed, reading back as the empty string). -/
theorem C8_wire_schema (ts : List ToolDescriptor)
    (h : ∀ t ∈ ts, t.description.isSome) :
    (wireListA ts).map readA = ts ∧
    (wireListB ts).map readB = ts ∧
    (wireListA ts).map AWireTool.name = ts.map ToolDescriptor.name ∧
    (wireListA ts).map AWireTool.input_schema = ts.map ToolDescriptor.inputSchema ∧
    (wireListB ts).map (fun w => w.function.name) = ts.map ToolDescriptor.name ∧
    (wireListB ts).map (fun w => w.function.parameters)
      = ts.map ToolDescriptor.inputSchema := by
  refine ⟨readList_wireList_A ts h, readList_wireList_B ts h, ?_, ?_, ?_, ?_⟩ <;>
    simp only [wireListA, wireListB, List.map_map] <;> rfl

theorem C8_wire_schema_witness :
    (wireListA [tDescPresent]).map readA = [tDescPresent] ∧
    (wireListB [tDescPresent]).map readB = [tDescPresent] := by
  have h := C8_wire_schema [tDescPresent] (by simp [tDescPresent])
  exact ⟨h.1, h.2.1⟩

/-- C10: calling `process_query` before a session is connected raises
`ValueError("Not connected to a server. Call connect_to_server()
first.")`, performs no provider call, tool call or tool listing (the
result does not depend on the environment at all), and leaves the client
state unchanged. -/
theorem C10_not_connected (env env2 : QueryEnv) (st : ClientState) (q : String)
    (h : st.session = none) :
    processQuery env st q =
      (.error "Not connected to a server. Call connect_to_server() first.", st) ∧
    processQuery env st q = processQuery env2 st q := by
  constructor <;> simp [processQuery, h]

theorem C10_not_connected_witness :
    processQuery emptyQueryEnv disconnectedClient "hi" =
      (.error "Not connected to a server. Call connect_to_server() first.",
       disconnectedClient) :=
  (C10_not_connected emptyQueryEnv emptyQueryEnv disconnectedClient "hi" rfl).1

/-- C7: at the start of each top-level query both paths reset the
conversation to exactly the single new user turn; a completed run's
conversation always starts with that user turn (nothing from earlier
queries precedes it), and every loop step only appends to the
conversation. -/
theorem C7_conversation_reset :
    (∀ q tools, (initA q tools).messages = [AMsg.user q]) ∧
    (∀ q tools m, (oSeed q tools m).messages = [OMsg.user q]) ∧
    (∀ env q tools r, env.create 0 = .ok r →
      runA env q tools = .ok (runABlocks env r (initA q tools))) ∧
    (∀ env q tools st, runA env q tools = .ok st →
      ∃ rest, st.messages = AMsg.user q :: rest) ∧
    (∀ env q tools st, runO env q tools = .ok st →
      ∃ rest, st.messages = OMsg.user q :: rest) ∧
    (∀ env st b, ∃ suffix, (stepA env st b).messages = st.messages ++ suffix) ∧
    (∀ env st tc, ∃ suffix, (stepO env st tc).messages = st.messages ++ suffix) := by
  refine ⟨fun q tools => rfl, fun q tools m => (oSeed_proj q tools m).1,
    fun env q tools r h => runA_ok env q tools r h, ?_, ?_, ?_, ?_⟩
  · intro env q tools st h
    cases hc : env.create 0 with
    | error e => rw [runA_err env q tools e hc] at h; cases h
    | ok r =>
        rw [runA_ok env q tools r hc] at h
        cases h
        obtain ⟨l, h1, -, -, -, -, -⟩ := runABlocks_spec env r (initA q tools)
        exact ⟨aPairs l, by simpa [initA] using h1⟩
  · intro env q tools st h
    cases hc : env.create 0 with
    | error e => rw [runO_err env q tools e hc] at h; cases h
    | ok m =>
        rw [runO_ok env q tools m hc] at h
        cases h
        obtain ⟨l, h1, -, -, -, -⟩ := runOToolCalls_spec env m.toolCalls (oSeed q tools m)
        refine ⟨oPairs l, ?_⟩
        rw [h1, (oSeed_proj q tools m).1]
        rfl
  · intro env st b
    cases b with
    | text s => exact ⟨[], by simp [stepA]⟩
    | toolUse name input id =>
        cases hcall : env.callTool st.toolCallCount name input with
        | error e =>
            exact ⟨[], by rw [stepA_toolUse_err env st name input id e hcall]; simp⟩
        | ok res =>
            exact ⟨[AMsg.assistantShared, AMsg.toolResult id (joinResultText res)],
              by rw [stepA_toolUse_ok env st name input id res hcall]⟩
  · intro env st tc
    cases hdec : env.jsonDecode tc.argumentsRaw with
    | none => exact ⟨[], by rw [stepO_decode_err env st tc hdec]; simp⟩
    | some toolArgs =>
        cases hcall : env.callTool st.toolCallCount tc.name toolArgs with
        | error e =>
            exact ⟨[], by rw [stepO_toolUse_err env st tc toolArgs e hdec hcall]; simp⟩
        | ok res =>
            exact ⟨[OMsg.assistantToolCall tc.id tc.name tc.argumentsRaw,
                    OMsg.toolMsg tc.id (joinResultText res)],
              by rw [stepO_toolUse_ok env st tc toolArgs res hdec hcall]⟩

theorem C7_conversation_reset_witness :
    (initA "hi" []).messages = [AMsg.user "hi"] ∧
    runA envA0 "hi" [] = .ok (runABlocks envA0 [ContentBlock.text "hello"] (initA "hi" [])) :=
  ⟨C7_conversation_reset.1 "hi" [],
   C7_conversation_reset.2.2.1 envA0 "hi" [] [ContentBlock.text "hello"] rfl⟩

/-- C4: a provider failure on the very first call of a query re-raises
and propagates to the caller of `process_query` (both paths, including
through the `processQuery` dispatcher); once the first call has
succeeded the run always returns normally, and a failure of a follow-up
provider call is absorbed into the visible error line
`[Error getting response after tool call: ...]` appended to the output
buffer. -/
theorem C4_provider_failure :
    (∀ env q tools e, env.create 0 = .error e → runA env q tools = .error e) ∧
    (∀ env q tools e, env.create 0 = .error e → runO env q tools = .error e) ∧
    (∀ (env : QueryEnv) st q s e, st.session = some s →
      env.listTools = .ok [] → st.provider = Provider.anthropic →
      env.aenv.create 0 = .error e →
      processQuery env st q = (.error e, st)) ∧
    (∀ env q tools r, env.create 0 = .ok r → exceptIsOk (runA env q tools) = true) ∧
    (∀ env q tools m, env.create 0 = .ok m → exceptIsOk (runO env q tools) = true) ∧
    (∀ env st name input id res e,
      env.callTool st.toolCallCount name input = .ok res →
      env.create st.callCount = .error e →
      (stepA env st (ContentBlock.toolUse name input id)).finalText =
        st.finalText ++
          ["[Calling tool " ++ name ++ " with args " ++ input.render ++ "]",
           "[Tool result: " ++ joinResultText res ++ "]",
           "[Error getting response after tool call: " ++ e ++ "]"]) ∧
    (∀ env st tc toolArgs res e,
      env.jsonDecode tc.argumentsRaw = some toolArgs →
      env.callTool st.toolCallCount tc.name toolArgs = .ok res →
      env.create st.callCount = .error e →
      (stepO env st tc).finalText =
        st.finalText ++
          ["[Calling tool " ++ tc.name ++ " with args " ++ toolArgs.render ++ "]",
           "[Tool result: " ++ joinResultText res ++ "]",
           "[Error getting response after tool call: " ++ e ++ "]"]) := by
  refine ⟨runA_err, runO_err, ?_, ?_, ?_, ?_, ?_⟩
  · intro env st q s e hs hlt hp herr
    simp [processQuery, hs, hlt, hp, runA_err env.aenv q [] e herr, Except.map]
  · intro env q tools r h
    rw [runA_ok env q tools r h]
    rfl
  · intro env q tools m h
    rw [runO_ok env q tools m h]
    rfl
  · intro env st name input id res e hcall herr
    rw [stepA_toolUse_ok env st name input id res hcall]
    simp [followupTextA_err env st.callCount e herr]
  · intro env st tc toolArgs res e hdec hcall herr
    rw [stepO_toolUse_ok env st tc toolArgs res hdec hcall]
    simp [followupTextO_err env st.callCount e herr]

theorem C4_provider_failure_witness :
    runA envAFail "hi" [] = .error "boom" ∧
    runO envOFail "hi" [] = .error "boom" ∧
    exceptIsOk (runA envA0 "hi" []) = true :=
  ⟨C4_provider_failure.1 envAFail "hi" [] "boom" rfl,
   C4_provider_failure.2.1 envOFail "hi" [] "boom" rfl,
   C4_provider_failure.2.2.2.1 envA0 "hi" [] [ContentBlock.text "hello"] rfl⟩

/-- C5: in the OpenAI path, a tool call whose JSON arguments string
fails to decode is skipped in isolation: exactly one visible error line
`[Error: Could not parse arguments for <name>]` is appended, the
conversation, the provider-call counter and the tool-call counter are
all unchanged (no provider call and no tool call is made for it), and
the loop goes on to process the remaining tool calls of the same
response. -/
theorem C5_argument_decode_skip :
    (∀ env st tc, env.jsonDecode tc.argumentsRaw = none →
      stepO env st tc =
        { st with
          finalText := st.finalText ++
            ["[Error: Could not parse arguments for " ++ tc.name ++ "]"] }) ∧
    (∀ env tc tcs st,
      runOToolCalls env (tc :: tcs) st = runOToolCalls env tcs (stepO env st tc)) := by
  exact ⟨stepO_decode_err, runOToolCalls_cons⟩

theorem C5_argument_decode_skip_witness :
    stepO envC5 (oSeed "q" [] { content := none, toolCalls := [tcGood1, tcBad, tcGood2] }) tcBad =
      { oSeed "q" [] { content := none, toolCalls := [tcGood1, tcBad, tcGood2] } with
        finalText :=
          (oSeed "q" [] { content := none, toolCalls := [tcGood1, tcBad, tcGood2] }).finalText ++
            ["[Error: Could not parse arguments for get_news]"] } :=
  C5_argument_decode_skip.1 envC5
    (oSeed "q" [] { content := none, toolCalls := [tcGood1, tcBad, tcGood2] }) tcBad rfl

/-- C9: trace lines in the visible output buffer.  A successful tool
call contributes `[Calling tool <name> with args <args>]` immediately
followed by `[Tool result: ...]` (both emitted only after the call has
returned successfully); a failed tool call contributes exactly one
`[Error calling tool <name>: ...]` line and neither of the other two;
an OpenAI argument-decode failure contributes exactly one
`[Error: Could not parse arguments for <name>]` line.  The four
equations cover every branch of both loops' tool-execution step. -/
theorem C9_trace_lines :
    (∀ env st name input id res,
      env.callTool st.toolCallCount name input = .ok res →
      (stepA env st (ContentBlock.toolUse name input id)).finalText =
        st.finalText ++
          ["[Calling tool " ++ name ++ " with args " ++ input.render ++ "]",
           "[Tool result: " ++ joinResultText res ++ "]"] ++
          followupTextA env st.callCount) ∧
    (∀ env st name input id e,
      env.callTool st.toolCallCount name input = .error e →
      (stepA env st (ContentBlock.toolUse name input id)).finalText =
        st.finalText ++ ["[Error calling tool " ++ name ++ ": " ++ e ++ "]"]) ∧
    (∀ env st tc toolArgs res,
      env.jsonDecode tc.argumentsRaw = some toolArgs →
      env.callTool st.toolCallCount tc.name toolArgs = .ok res →
      (stepO env st tc).finalText =
        st.finalText ++
          ["[Calling tool " ++ tc.name ++ " with args " ++ toolArgs.render ++ "]",
           "[Tool result: " ++ joinResultText res ++ "]"] ++
          followupTextO env st.callCount) ∧
    (∀ env st tc toolArgs e,
      env.jsonDecode tc.argumentsRaw = some toolArgs →
      env.callTool st.toolCallCount tc.name toolArgs = .error e →
      (stepO env st tc).finalText =
        st.finalText ++ ["[Error calling tool " ++ tc.name ++ ": " ++ e ++ "]"]) ∧
    (∀ env st tc, env.jsonDecode tc.argumentsRaw = none →
      (stepO env st tc).finalText =
        st.finalText ++ ["[Error: Could not parse arguments for " ++ tc.name ++ "]"]) := by
  refine ⟨?_, ?_, ?_, ?_, ?_⟩
  · intro env st name input id res h
    rw [stepA_toolUse_ok env st name input id res h]
  · intro env st name input id e h
    rw [stepA_toolUse_err env st name input id e h]
  · intro env st tc toolArgs res hdec h
    rw [stepO_toolUse_ok env st tc toolArgs res hdec h]
  · intro env st tc toolArgs e hdec h
    rw [stepO_toolUse_err env st tc toolArgs e hdec h]
  · intro env st tc h
    rw [stepO_decode_err env st tc h]

theorem C9_trace_lines_witness :
    (stepA envC3 (initA "q" []) (ContentBlock.toolUse "get_weather" Json.null "id1")).finalText =
      (initA "q" []).finalText ++ ["[Error calling tool get_weather: boom]"] :=
  C9_trace_lines.2.1 envC3 (initA "q" []) "get_weather" Json.null "id1" "boom" rfl

/-- C3 (counterexample): a failing tool execution is NOT converted into
a ToolResult entry in the conversation.  With a single requested tool
whose execution raises `boom`, the loop emits the visible error line and
`continue`s: the conversation that reaches any later provider call is
still just the user turn — it contains no tool-result (ok=false or
otherwise) and no assistant tool-request turn at all. -/
theorem C3_counterexample :
    aConversationOf (runA envC3 "What is the weather?" []) =
      [ATurn.user "What is the weather?"] ∧
    aFinalTextOf (runA envC3 "What is the weather?" []) =
      ["[Error calling tool get_weather: boom]"] ∧
    aResultIds (aMessagesOf (runA envC3 "What is the weather?" [])) = [] := by
  exact ⟨rfl, rfl, rfl⟩

/-- C3 (amended): a failure raised by a tool call is absorbed into a
single visible `[Error calling tool <name>: <cause>]` output line; the
conversation is left completely unchanged for the failed call (neither a
request turn nor a ToolResult turn is appended — the failed call is
omitted from the conversation entirely, which is how it stays
well-formed), only the tool-call counter advances, and the loop
continues with the remaining queued tool calls of the same response. -/
theorem C3_tool_failure :
    (∀ env st name input id e,
      env.callTool st.toolCallCount name input = .error e →
      stepA env st (ContentBlock.toolUse name input id) =
        { st with
          finalText := st.finalText ++
            ["[Error calling tool " ++ name ++ ": " ++ e ++ "]"]
          toolCallCount := st.toolCallCount + 1 }) ∧
    (∀ env b bs st,
      runABlocks env (b :: bs) st = runABlocks env bs (stepA env st b)) ∧
    (∀ env st tc toolArgs e,
      env.jsonDecode tc.argumentsRaw = some toolArgs →
      env.callTool st.toolCallCount tc.name toolArgs = .error e →
      stepO env st tc =
        { st with
          finalText := st.finalText ++
            ["[Error calling tool " ++ tc.name ++ ": " ++ e ++ "]"]
          toolCallCount := st.toolCallCount + 1 }) ∧
    (∀ env tc tcs st,
      runOToolCalls env (tc :: tcs) st = runOToolCalls env tcs (stepO env st tc)) :=
  ⟨stepA_toolUse_err, runABlocks_cons, stepO_toolUse_err, runOToolCalls_cons⟩

theorem C3_tool_failure_witness :
    stepA envC3 (initA "q" []) (ContentBlock.toolUse "get_weather" Json.null "id1") =
      { initA "q" [] with
        finalText := (initA "q" []).finalText ++
          ["[Error calling tool get_weather: boom]"]
        toolCallCount := (initA "q" []).toolCallCount + 1 } :=
  C3_tool_failure.1 envC3 (initA "q" []) "get_weather" Json.null "id1" "boom" rfl

/-- C1 (counterexample): tool requests contained in a follow-up provider
response are NOT executed.  In `envC1` the first response requests one
tool (`id1`) and the follow-up response requests `second_tool` (`id2`);
the run executes exactly one tool call, answers only `id1`, and returns
with the `id2` request never executed (the loop iterates over the first
response's blocks only). -/
theorem C1_counterexample :
    envC1.create 1 = .ok [ContentBlock.toolUse "second_tool" Json.null "id2"] ∧
    aToolCallCountOf (runA envC1 "What is the weather in Paris?" []) = 1 ∧
    aResultIds (aMessagesOf (runA envC1 "What is the weather in Paris?" [])) = ["id1"] ∧
    aMessagesOf (runA envC1 "What is the weather in Paris?" []) =
      [AMsg.user "What is the weather in Paris?", AMsg.assistantShared,
       AMsg.toolResult "id1" "sunny"] := by
  exact ⟨rfl, rfl, rfl, rfl⟩

/-- C1 (amended): the loop executes exactly the tool requests of the
FIRST provider response (one bridge attempt per requested block /
decodable tool call), makes exactly one follow-up provider call per
successful execution, and every answered request id originates in the
first response; in particular a first response with no tool requests
yields one provider call, no tool execution, and termination.  Tool
requests contained in follow-up responses are never executed. -/
theorem C1_first_response_only :
    (∀ env q tools r st, env.create 0 = .ok r → runA env q tools = .ok st →
      st.toolCallCount = (blockRequestIds r).length ∧
      st.callCount = 1 + (aResultIds st.messages).length ∧
      List.Sublist (aResultIds st.messages) (blockRequestIds r)) ∧
    (∀ env q tools m st, env.create 0 = .ok m → runO env q tools = .ok st →
      st.toolCallCount = decodableCount env m.toolCalls ∧
      st.callCount = 1 + (oResultIds st.messages).length ∧
      List.Sublist (oResultIds st.messages) (tcIds m.toolCalls)) := by
  constructor
  · intro env q tools r st h hrun
    rw [runA_ok env q tools r h] at hrun
    cases hrun
    obtain ⟨l, h1, h2, h3, h4, h5, h6⟩ := runABlocks_spec env r (initA q tools)
    have hmsg : aResultIds (runABlocks env r (initA q tools)).messages
        = l.map APair.rid := by
      rw [h1, aResultIds_append, aResultIds_aPairs]
      simp [initA, aResultIds]
    refine ⟨?_, ?_, ?_⟩
    · rw [h4]; simp [initA]
    · rw [h5, hmsg]; simp [initA]
    · rw [hmsg]; exact h3
  · intro env q tools m st h hrun
    rw [runO_ok env q tools m h] at hrun
    cases hrun
    obtain ⟨l, h1, h2, h3, h4, h5⟩ := runOToolCalls_spec env m.toolCalls (oSeed q tools m)
    obtain ⟨hm, hc, ht, hw⟩ := oSeed_proj q tools m
    have hmsg : oResultIds (runOToolCalls env m.toolCalls (oSeed q tools m)).messages
        = l.map OPair.rid := by
      rw [h1, hm, oResultIds_append, oResultIds_oPairs]
      rfl
    refine ⟨?_, ?_, ?_⟩
    · rw [h3, ht]; simp
    · rw [h4, hc, hmsg]; simp
    · rw [hmsg]; exact h2

theorem C1_first_response_only_witness :
    aToolCallCountOf (runA envA0 "hi" []) = (blockRequestIds [ContentBlock.text "hello"]).length ∧
    (blockRequestIds [ContentBlock.text "hello"]).length = 0 := by
  have h := C1_first_response_only.1 envA0 "hi" [] [ContentBlock.text "hello"]
    (runABlocks envA0 [ContentBlock.text "hello"] (initA "hi" [])) rfl rfl
  exact ⟨h.1, rfl⟩

/-- C2 (counterexample): in the Anthropic path a request CAN appear more
than once in the conversation.  Each successful tool call appends an
assistant message holding a reference to the one shared
`assistant_message_content` list, so after two successful calls both
assistant turns contain both `tool_use` blocks: request id `1` occurs in
two turns of the conversation the loop built (its result turn is still
unique). -/
theorem C2_counterexample :
    countRequestOccurrences "1" (aConversationOf (runA envC2 "q" [])) = 2 ∧
    aResultIds (aMessagesOf (runA envC2 "q" [])) = ["1", "2"] := by
  exact ⟨rfl, rfl⟩

/-- C2 (amended): every `AssistantToolRequest` appended by the loop is
immediately followed by exactly one `ToolResult` with the same
request_id — the conversation has the shape user-turn followed by
request/result pairs, the result ids enumerate exactly the executed
requests, and they are distinct whenever the provider's request ids are
distinct (so no request is left unanswered and no request id is answered
twice).  However, in the Anthropic path a request may additionally
appear inside more than one assistant turn, because all assistant turns
share one content list (see the counterexample); in the OpenAI path each
request turn carries exactly its own tool call. -/
theorem C2_request_result_pairing :
    (∀ env q tools r st, env.create 0 = .ok r → runA env q tools = .ok st →
      ∃ l : List APair,
        st.messages = AMsg.user q :: aPairs l ∧
        aResultIds st.messages = l.map APair.rid ∧
        blockRequestIds st.assistantContent = l.map APair.rid ∧
        ((blockRequestIds r).Nodup → (l.map APair.rid).Nodup)) ∧
    (∀ env q tools m st, env.create 0 = .ok m → runO env q tools = .ok st →
      ∃ l : List OPair,
        st.messages = OMsg.user q :: oPairs l ∧
        oRequestIds st.messages = l.map OPair.rid ∧
        oResultIds st.messages = l.map OPair.rid ∧
        ((tcIds m.toolCalls).Nodup → (l.map OPair.rid).Nodup)) := by
  constructor
  · intro env q tools r st h hrun
    rw [runA_ok env q tools r h] at hrun
    cases hrun
    obtain ⟨l, h1, h2, h3, h4, h5, h6⟩ := runABlocks_spec env r (initA q tools)
    refine ⟨l, ?_, ?_, ?_, ?_⟩
    · rw [h1]; rfl
    · rw [h1, aResultIds_append, aResultIds_aPairs]; rfl
    · rw [h2]; rfl
    · intro hnd
      exact List.Nodup.sublist h3 hnd
  · intro env q tools m st h hrun
    rw [runO_ok env q tools m h] at hrun
    cases hrun
    obtain ⟨l, h1, h2, h3, h4, h5⟩ := runOToolCalls_spec env m.toolCalls (oSeed q tools m)
    obtain ⟨hm, hc, ht, hw⟩ := oSeed_proj q tools m
    refine ⟨l, ?_, ?_, ?_, ?_⟩
    · rw [h1, hm]; rfl
    · rw [h1, hm, oRequestIds_append, oRequestIds_oPairs]; rfl
    · rw [h1, hm, oResultIds_append, oResultIds_oPairs]; rfl
    · intro hnd
      exact List.Nodup.sublist h2 hnd

theorem C2_request_result_pairing_witness :
    ∃ l : List APair,
      (runABlocks envC2
          [ContentBlock.toolUse "alpha" Json.null "1",
           ContentBlock.toolUse "beta" Json.null "2"] (initA "q" [])).messages
        = AMsg.user "q" :: aPairs l ∧
      aResultIds (runABlocks envC2
          [ContentBlock.toolUse "alpha" Json.null "1",
           ContentBlock.toolUse "beta" Json.null "2"] (initA "q" [])).messages
        = l.map APair.rid ∧
      blockRequestIds (runABlocks envC2
          [ContentBlock.toolUse "alpha" Json.null "1",
           ContentBlock.toolUse "beta" Json.null "2"] (initA "q" [])).assistantContent
        = l.map APair.rid ∧
      ((blockRequestIds
          [ContentBlock.toolUse "alpha" Json.null "1",
           ContentBlock.toolUse "beta" Json.null "2"]).Nodup →
        (l.map APair.rid).Nodup) :=
  C2_request_result_pairing.1 envC2 "q" []
    [ContentBlock.toolUse "alpha" Json.null "1",
     ContentBlock.toolUse "beta" Json.null "2"]
    (runABlocks envC2
      [ContentBlock.toolUse "alpha" Json.null "1",
       ContentBlock.toolUse "beta" Json.null "2"] (initA "q" [])) rfl rfl

/-- C6: a `use <provider>[:<model>]` switch never touches the open
tool-hosting session (`self.session` is preserved by every branch, so
the connection object identity is unchanged and no reconnection
happens); an unsupported provider string leaves the whole state
unmodified and only prints the `Unsupported provider` error (the
handler is total, so the interactive loop does not crash); a successful
switch to the other provider replaces the active provider, model name,
full model name and adapter objects (the other provider's adapter is
dropped to `None`). -/
theorem C6_provider_switch :
    (∀ keys st rest, ((handleUse keys st rest).1).session = st.session) ∧
    (∀ keys st rest, parseUseProvider rest ≠ "openai" →
      parseUseProvider rest ≠ "anthropic" →
      handleUse keys st rest = (st, [unsupportedProviderMsg (parseUseProvider rest)])) ∧
    (∀ keys st rest, parseUseProvider rest = "openai" →
      st.provider = Provider.anthropic → optTruthy keys.openaiKey = true →
      (handleUse keys st rest).1 =
        { st with
          provider := Provider.openai
          model_name := parseUseModel rest
          full_model_name := modelsGet OPENAI_MODELS (parseUseModel rest)
          hasAnthropic := false
          hasOpenai := true }) ∧
    (∀ keys st rest, parseUseProvider rest = "anthropic" →
      st.provider = Provider.openai → optTruthy keys.anthropicKey = true →
      (handleUse keys st rest).1 =
        { st with
          provider := Provider.anthropic
          model_name := parseUseModel rest
          full_model_name := modelsGet ANTHROPIC_MODELS (parseUseModel rest)
          hasAnthropic := true
          hasOpenai := false }) := by
  refine ⟨?_, ?_, ?_, ?_⟩
  · intro keys st rest
    simp only [handleUse]
    repeat' split
    all_goals rfl
  · intro keys st rest h1 h2
    simp only [handleUse]
    rw [if_neg]
    simp [h1, h2]
  · intro keys st rest hp hprov hkey
    simp [handleUse, hp, hprov, hkey, initClient]
  · intro keys st rest hp hprov hkey
    simp [handleUse, hp, hprov, hkey, initClient]

theorem C6_provider_switch_witness :
    ((handleUse keys0 client0 "openai:gpt-4").1) =
      { client0 with
        provider := Provider.openai
        model_name := some "gpt-4"
        full_model_name := some "gpt-4o"
        hasAnthropic := false
        hasOpenai := true } ∧
    ((handleUse keys0 client0 "openai:gpt-4").1).session = client0.session ∧
    handleUse keys0 client0 "deepseek" =
      (client0, [unsupportedProviderMsg "deepseek"]) :=
  ⟨C6_provider_switch.2.2.1 keys0 client0 "openai:gpt-4" rfl rfl rfl,
   C6_provider_switch.1 keys0 client0 "openai:gpt-4",
   C6_provider_switch.2.1 keys0 client0 "deepseek" (by decide) (by decide)⟩
